import Mathlib

/-!
Verification development for the financial-model web application
(server pipeline in src/server, shared schema, HTTP route layer).

The TypeScript source is shallowly embedded: JavaScript numbers are
modelled as an inductive type distinguishing finite rationals from
NaN, plus and minus Infinity, and the absent value (a missing object
property reads as undefined); code that can throw a TypeError is
embedded in the Except monad.
-/

namespace IFA

/-- A JavaScript number-valued slot as read off an object: it may be a
finite number, NaN, plus or minus Infinity, or absent (undefined). -/
inductive JsNum : Type
  | undef : JsNum
  | nan : JsNum
  | inf : JsNum
  | neginf : JsNum
  | num : ℚ → JsNum
deriving DecidableEq

/-- The test performed by the global isFinite: true exactly on finite
numbers (undefined coerces to NaN, hence false). -/
def jsIsFinite : JsNum → Bool
  | JsNum.num _ => true
  | _ => false

/-- JavaScript truthiness of a numeric slot: 0, NaN and undefined are
falsy; every other number, including the infinities, is truthy. -/
def jsTruthy : JsNum → Bool
  | JsNum.num a => decide (a ≠ 0)
  | JsNum.inf => true
  | JsNum.neginf => true
  | JsNum.nan => false
  | JsNum.undef => false

/-- JavaScript comparison value < c for a finite constant c: NaN and
undefined compare false; -Infinity is below every finite constant. -/
def jsLt : JsNum → ℚ → Bool
  | JsNum.num a, c => decide (a < c)
  | JsNum.inf, _ => false
  | JsNum.neginf, _ => true
  | JsNum.nan, _ => false
  | JsNum.undef, _ => false

/-- JavaScript comparison value > c for a finite constant c: NaN and
undefined compare false; +Infinity is above every finite constant. -/
def jsGt : JsNum → ℚ → Bool
  | JsNum.num a, c => decide (c < a)
  | JsNum.inf, _ => true
  | JsNum.neginf, _ => false
  | JsNum.nan, _ => false
  | JsNum.undef, _ => false

/-- One monthly revenue-projection record of the generated artifact
(shared schema: month, revenue, costs, grossProfit). -/
structure RevenueMonth : Type where
  month : ℚ
  revenue : ℚ
  costs : ℚ
  grossProfit : ℚ
deriving DecidableEq

/-- One monthly cash-flow record of the generated artifact
(shared schema: month, inflow, outflow, netCashFlow, cumulativeCash). -/
structure CashFlowMonth : Type where
  month : ℚ
  inflow : ℚ
  outflow : ℚ
  netCashFlow : ℚ
  cumulativeCash : ℚ
deriving DecidableEq

/-- One annual-projection record of the generated artifact
(shared schema: year, revenue, expenses, grossProfit, netProfit). -/
structure AnnualProjection : Type where
  year : ℚ
  revenue : ℚ
  expenses : ℚ
  grossProfit : ℚ
  netProfit : ℚ
deriving DecidableEq

/-- The keyMetrics object of the generated artifact; every field is a
JavaScript numeric slot so that missing and non-finite values are
representable. -/
structure KeyMetrics : Type where
  breakEvenMonth : JsNum
  year1TotalRevenue : JsNum
  year1NetProfit : JsNum
  roi : JsNum
  paybackPeriod : JsNum
  projectedYear5Revenue : JsNum
  projectedYear5NetProfit : JsNum
deriving DecidableEq

/-- One risk entry of the generated artifact. -/
structure RiskItem : Type where
  risk : String
  impact : String
  mitigation : String
deriving DecidableEq

/-- The parsed artifact handed to the validator (GeneratedModel in the
shared schema). The arrays and the keyMetrics object are Options so
that a missing property of the parsed JSON is representable. -/
structure GeneratedModel : Type where
  executiveSummary : String
  revenueProjections : Option (List RevenueMonth)
  cashFlow : Option (List CashFlowMonth)
  annualProjections : Option (List AnnualProjection)
  keyMetrics : Option KeyMetrics
  riskAnalysis : List RiskItem
  recommendations : List String
deriving DecidableEq

/-- The entry pushed by the revenue-padding loop in runValidatorAgent
(src/server/gemini-service.ts lines 213-218): month is the new array
length, revenue grows 5 percent, costs 3 percent, gross profit 7
percent over the given preceding entry. -/
def nextRev (last : RevenueMonth) (m : ℚ) : RevenueMonth :=
  { month := m
    revenue := last.revenue * 1.05
    costs := last.costs * 1.03
    grossProfit := last.grossProfit * 1.07 }

/-- The entry pushed by the cash-flow-padding loop in runValidatorAgent
(src/server/gemini-service.ts lines 226-232). -/
def nextCF (last : CashFlowMonth) (m : ℚ) : CashFlowMonth :=
  { month := m
    inflow := last.inflow * 1.05
    outflow := last.outflow * 1.03
    netCashFlow := last.netCashFlow * 1.07
    cumulativeCash := last.cumulativeCash + last.netCashFlow * 1.07 }

/-- One while-loop of runValidatorAgent, fuelled: while the array is
shorter than 12 entries, read the last entry (reading it from an empty
array is the JavaScript TypeError of accessing a property of
undefined) and push its successor. The loop body runs at most 11
times, so any fuel above 12 is equivalent. -/
def padGo {α : Type} (next : α → ℚ → α) : ℕ → List α → Except String (List α)
  | 0, l => Except.ok l
  | fuel + 1, l =>
    if l.length < 12 then
      match l.getLast? with
      | none =>
        Except.error "TypeError: Cannot read properties of undefined"
      | some last => padGo next fuel (l ++ [next last ((l.length : ℚ) + 1)])
    else Except.ok l

/-- The monthly-padding step of runValidatorAgent for one array
(src/server/gemini-service.ts lines 209-234): fuel 12 always suffices
because each iteration lengthens the array by one and the guard stops
at length 12. -/
def padLoop {α : Type} (next : α → ℚ → α) (l : List α) : Except String (List α) :=
  padGo next 12 l

/-- Guard of the annual-projection block of runValidatorAgent
(src/server/gemini-service.ts line 237): the fallback runs when the
array is absent or does not have exactly 5 entries (an empty array is
truthy in JavaScript, so only absence makes the first disjunct fire). -/
def annualNeedsFallback : Option (List AnnualProjection) → Bool
  | none => true
  | some ap => decide (ap.length ≠ 5)

/-- hasValidYear1Data of runValidatorAgent (src/server/gemini-service.ts
lines 241-246): both year-1 key metrics must be present finite numbers
(typeof number and isFinite) and revenue at least net profit. -/
def hasValidYear1Data (m : GeneratedModel) : Bool :=
  match m.keyMetrics with
  | none => false
  | some km =>
    match km.year1TotalRevenue, km.year1NetProfit with
    | JsNum.num r, JsNum.num p => decide (p ≤ r)
    | _, _ => false

/-- The five-entry fallback annualProjections array built by
runValidatorAgent (src/server/gemini-service.ts lines 257-293) from
year-1 revenue and year-1 net profit. -/
def fallbackProjections (year1Revenue year1NetProfit : ℚ) : List AnnualProjection :=
  let year1Expenses := year1Revenue - year1NetProfit
  [ { year := 1
      revenue := year1Revenue
      expenses := year1Expenses
      grossProfit := year1Revenue - year1Expenses
      netProfit := year1NetProfit },
    { year := 2
      revenue := year1Revenue * 1.4
      expenses := year1Expenses * 1.3
      grossProfit := year1Revenue * 1.4 - year1Expenses * 1.3
      netProfit := year1Revenue * 1.4 - year1Expenses * 1.3 },
    { year := 3
      revenue := year1Revenue * 1.9
      expenses := year1Expenses * 1.6
      grossProfit := year1Revenue * 1.9 - year1Expenses * 1.6
      netProfit := year1Revenue * 1.9 - year1Expenses * 1.6 },
    { year := 4
      revenue := year1Revenue * 2.5
      expenses := year1Expenses * 2.0
      grossProfit := year1Revenue * 2.5 - year1Expenses * 2.0
      netProfit := year1Revenue * 2.5 - year1Expenses * 2.0 },
    { year := 5
      revenue := year1Revenue * 3.2
      expenses := year1Expenses * 2.5
      grossProfit := year1Revenue * 3.2 - year1Expenses * 2.5
      netProfit := year1Revenue * 3.2 - year1Expenses * 2.5 } ]

/-- The break-even clamp of runValidatorAgent (src/server/gemini-service.ts
lines 307-308), using JavaScript comparison semantics: values below 1
become 1, then values above 24 become 24; NaN and undefined compare
false on both tests and pass through unchanged. -/
def clampBreakEven (km : KeyMetrics) : KeyMetrics :=
  let km1 := if jsLt km.breakEvenMonth 1
             then { km with breakEvenMonth := JsNum.num 1 } else km
  if jsGt km1.breakEvenMonth 24
  then { km1 with breakEvenMonth := JsNum.num 24 } else km1

/-- Lines 296-308 of runValidatorAgent: backfill the year-5 key metrics
from the last annual projection when the annual array has exactly 5
entries and the stored value is falsy or non-finite, then clamp the
break-even month. Reading keyMetrics fields of an absent keyMetrics
object throws. -/
def finalizeMetrics (m : GeneratedModel) : Except String GeneratedModel :=
  match m.annualProjections with
  | some ap =>
    if h : ap.length = 5 then
      match m.keyMetrics with
      | none =>
        Except.error "TypeError: Cannot read properties of undefined"
      | some km =>
        let a4 := ap.get ⟨4, by omega⟩
        let km1 := if !jsTruthy km.projectedYear5Revenue
                      || !jsIsFinite km.projectedYear5Revenue
                   then { km with projectedYear5Revenue := JsNum.num a4.revenue }
                   else km
        let km2 := if !jsTruthy km1.projectedYear5NetProfit
                      || !jsIsFinite km1.projectedYear5NetProfit
                   then { km1 with projectedYear5NetProfit := JsNum.num a4.netProfit }
                   else km1
        Except.ok { m with keyMetrics := some (clampBreakEven km2) }
    else
      match m.keyMetrics with
      | none =>
        Except.error "TypeError: Cannot read properties of undefined"
      | some km => Except.ok { m with keyMetrics := some (clampBreakEven km) }
  | none =>
    match m.keyMetrics with
    | none =>
      Except.error "TypeError: Cannot read properties of undefined"
    | some km => Except.ok { m with keyMetrics := some (clampBreakEven km) }

/-- The annual-projection block of runValidatorAgent
(src/server/gemini-service.ts lines 237-294): when the guard fires and
year-1 data is invalid the artifact is returned early with an empty
annual array, skipping finalizeMetrics entirely; when it is valid the
five-entry fallback is installed and validation continues. -/
def validateAnnual (m : GeneratedModel) : Except String GeneratedModel :=
  if annualNeedsFallback m.annualProjections then
    match m.keyMetrics with
    | none => Except.ok { m with annualProjections := some [] }
    | some km =>
      match km.year1TotalRevenue, km.year1NetProfit with
      | JsNum.num r, JsNum.num p =>
        if p ≤ r then
          finalizeMetrics { m with annualProjections := some (fallbackProjections r p) }
        else Except.ok { m with annualProjections := some [] }
      | _, _ => Except.ok { m with annualProjections := some [] }
  else finalizeMetrics m

/-- runValidatorAgent (src/server/gemini-service.ts lines 202-311): pad
both monthly arrays (reading .length of a missing array throws), then
run the annual-projection block and the key-metrics finalization. -/
def runValidatorAgent (m : GeneratedModel) : Except String GeneratedModel :=
  match m.revenueProjections with
  | none => Except.error "TypeError: Cannot read properties of undefined"
  | some rl =>
    match padLoop nextRev rl with
    | Except.error e => Except.error e
    | Except.ok rl2 =>
      match m.cashFlow with
      | none => Except.error "TypeError: Cannot read properties of undefined"
      | some cl =>
        match padLoop nextCF cl with
        | Except.error e => Except.error e
        | Except.ok cl2 =>
          validateAnnual { m with revenueProjections := some rl2, cashFlow := some cl2 }

/-- Concrete one-entry revenue array used to instantiate the padding
theorem (the spec example values). -/
def c1rl : List RevenueMonth :=
  [{ month := 1, revenue := 1000, costs := 400, grossProfit := 600 }]

/-- Concrete one-entry cash-flow array used to instantiate the padding
theorem. -/
def c1cl : List CashFlowMonth :=
  [{ month := 1, inflow := 100, outflow := 40, netCashFlow := 60, cumulativeCash := 60 }]

/-- Concrete key metrics used for the annual-fallback example
(year-1 revenue 120000, year-1 net profit 24000). -/
def kmC2 : KeyMetrics :=
  { breakEvenMonth := JsNum.num 6, year1TotalRevenue := JsNum.num 120000,
    year1NetProfit := JsNum.num 24000, roi := JsNum.num 20,
    paybackPeriod := JsNum.num 18, projectedYear5Revenue := JsNum.num 1,
    projectedYear5NetProfit := JsNum.num 1 }

/-- Concrete artifact with a missing annual-projection array and valid
year-1 data. -/
def mC2 : GeneratedModel :=
  { executiveSummary := "", revenueProjections := some [],
    cashFlow := some [], annualProjections := none,
    keyMetrics := some kmC2, riskAnalysis := [], recommendations := [] }

/-- A zero revenue entry used to build concrete arrays. -/
def rm0 : RevenueMonth := { month := 1, revenue := 0, costs := 0, grossProfit := 0 }

/-- A zero cash-flow entry used to build concrete arrays. -/
def cm0 : CashFlowMonth :=
  { month := 1, inflow := 0, outflow := 0, netCashFlow := 0, cumulativeCash := 0 }

/-- Concrete 13-entry revenue array. -/
def rl13 : List RevenueMonth := List.replicate 13 rm0

/-- Concrete 12-entry revenue array. -/
def rl12 : List RevenueMonth := List.replicate 12 rm0

/-- Concrete 12-entry cash-flow array. -/
def cl12 : List CashFlowMonth := List.replicate 12 cm0

/-- Concrete artifact whose revenue array has 13 entries (and no
key-metrics object, so the validator takes the early return). -/
def mC3 : GeneratedModel :=
  { executiveSummary := "", revenueProjections := some rl13,
    cashFlow := some cl12, annualProjections := none,
    keyMetrics := none, riskAnalysis := [], recommendations := [] }

/-- Concrete artifact whose revenue array is present but empty. -/
def mC5 : GeneratedModel :=
  { executiveSummary := "", revenueProjections := some [],
    cashFlow := some [], annualProjections := none,
    keyMetrics := none, riskAnalysis := [], recommendations := [] }

/-- Concrete artifact on which the validator succeeds. -/
def mC5w : GeneratedModel :=
  { executiveSummary := "", revenueProjections := some rl12,
    cashFlow := some cl12, annualProjections := none,
    keyMetrics := none, riskAnalysis := [], recommendations := [] }

/-- Concrete five-entry annual-projection array. -/
def ap5 : List AnnualProjection :=
  List.replicate 5 { year := 1, revenue := 0, expenses := 0, grossProfit := 0, netProfit := 0 }

/-- Five-entry annual array whose last entry has revenue 500 and net
profit 300. -/
def ap5C9 : List AnnualProjection :=
  List.replicate 4 { year := 1, revenue := 0, expenses := 0, grossProfit := 0, netProfit := 0 }
    ++ [{ year := 5, revenue := 500, expenses := 100, grossProfit := 400, netProfit := 300 }]

/-- Key metrics with break-even month 0 and NaN year-1 revenue (invalid
year-1 data). -/
def kmC4 : KeyMetrics :=
  { breakEvenMonth := JsNum.num 0, year1TotalRevenue := JsNum.nan,
    year1NetProfit := JsNum.num 0, roi := JsNum.num 0,
    paybackPeriod := JsNum.num 0, projectedYear5Revenue := JsNum.num 1,
    projectedYear5NetProfit := JsNum.num 1 }

/-- Artifact that takes the validator's early return with break-even
month 0. -/
def mC4 : GeneratedModel :=
  { executiveSummary := "", revenueProjections := some rl12,
    cashFlow := some cl12, annualProjections := none,
    keyMetrics := some kmC4, riskAnalysis := [], recommendations := [] }

/-- Key metrics with break-even month 100 and an intact artifact. -/
def kmC4w : KeyMetrics :=
  { breakEvenMonth := JsNum.num 100, year1TotalRevenue := JsNum.num 1,
    year1NetProfit := JsNum.num 1, roi := JsNum.num 1,
    paybackPeriod := JsNum.num 1, projectedYear5Revenue := JsNum.num 1,
    projectedYear5NetProfit := JsNum.num 1 }

/-- Artifact that reaches the clamp with break-even month 100. -/
def mC4w : GeneratedModel :=
  { executiveSummary := "", revenueProjections := some rl12,
    cashFlow := some cl12, annualProjections := some ap5,
    keyMetrics := some kmC4w, riskAnalysis := [], recommendations := [] }

/-- Key metrics whose projectedYear5Revenue is the finite number 0. -/
def kmC9 : KeyMetrics :=
  { breakEvenMonth := JsNum.num 5, year1TotalRevenue := JsNum.num 9,
    year1NetProfit := JsNum.num 3, roi := JsNum.num 1,
    paybackPeriod := JsNum.num 1, projectedYear5Revenue := JsNum.num 0,
    projectedYear5NetProfit := JsNum.num 7 }

/-- Artifact with a five-entry annual array and projectedYear5Revenue
equal to 0. -/
def mC9 : GeneratedModel :=
  { executiveSummary := "", revenueProjections := some rl12,
    cashFlow := some cl12, annualProjections := some ap5C9,
    keyMetrics := some kmC9, riskAnalysis := [], recommendations := [] }

/-! ## Storage layer (src/server/storage.ts, shared schema) and route layer
(src/server/routes.ts). Timestamps are abstract naturals supplied by the
caller; database-generated ids are parameters. -/

/-- One row of the financial_models table (shared schema plus the
updatedAt and pdfFilePath columns written by DbStorage and the routes). -/
structure FinancialModel : Type where
  id : String
  businessIdea : String
  selectedSector : Option String
  startupCost : Option ℚ
  monthlyRevenue : Option ℚ
  grossMargin : Option ℚ
  operatingExpenses : Option ℚ
  customAssumptions : Option String
  generatedModel : Option GeneratedModel
  excelFilePath : Option String
  pdfFilePath : Option String
  status : String
  createdAt : ℕ
  updatedAt : ℕ
  completedAt : Option ℕ
deriving DecidableEq

/-- One row of the model_versions table: the snapshot taken by
DbStorage.createModelVersion (note: it does not include pdfFilePath). -/
structure ModelVersion : Type where
  id : String
  modelId : String
  versionNumber : ℕ
  businessIdea : String
  selectedSector : Option String
  startupCost : Option ℚ
  monthlyRevenue : Option ℚ
  grossMargin : Option ℚ
  operatingExpenses : Option ℚ
  customAssumptions : Option String
  generatedModel : Option GeneratedModel
  excelFilePath : Option String
  changeDescription : Option String
  createdAt : ℕ
deriving DecidableEq

/-- One row of the scenarios table. -/
structure Scenario : Type where
  id : String
  modelId : String
  name : String
  description : Option String
  startupCost : Option ℚ
  monthlyRevenue : Option ℚ
  grossMargin : Option ℚ
  operatingExpenses : Option ℚ
  customAssumptions : Option String
deriving DecidableEq

/-- The database state: the three tables the claims are about. -/
structure Storage : Type where
  financialModels : List FinancialModel
  modelVersions : List ModelVersion
  scenarios : List Scenario
deriving DecidableEq

/-- A Partial FinancialModel as passed to DbStorage.updateFinancialModel:
a present field overwrites, an absent one is left alone. -/
structure ModelPatch : Type where
  businessIdea : Option String
  selectedSector : Option (Option String)
  startupCost : Option (Option ℚ)
  monthlyRevenue : Option (Option ℚ)
  grossMargin : Option (Option ℚ)
  operatingExpenses : Option (Option ℚ)
  customAssumptions : Option (Option String)
  generatedModel : Option (Option GeneratedModel)
  excelFilePath : Option (Option String)
  pdfFilePath : Option (Option String)
  status : Option String
  completedAt : Option (Option ℕ)
deriving DecidableEq

/-- The all-absent patch. -/
def emptyPatch : ModelPatch :=
  ⟨none, none, none, none, none, none, none, none, none, none, none, none⟩

/-- Application of a patch row-wise, as the SQL UPDATE ... SET of
DbStorage.updateFinancialModel does; updatedAt is always set to the
current time (storage.ts line 80). -/
def applyPatch (m : FinancialModel) (p : ModelPatch) (now : ℕ) : FinancialModel :=
  { id := m.id
    businessIdea := p.businessIdea.getD m.businessIdea
    selectedSector := p.selectedSector.getD m.selectedSector
    startupCost := p.startupCost.getD m.startupCost
    monthlyRevenue := p.monthlyRevenue.getD m.monthlyRevenue
    grossMargin := p.grossMargin.getD m.grossMargin
    operatingExpenses := p.operatingExpenses.getD m.operatingExpenses
    customAssumptions := p.customAssumptions.getD m.customAssumptions
    generatedModel := p.generatedModel.getD m.generatedModel
    excelFilePath := p.excelFilePath.getD m.excelFilePath
    pdfFilePath := p.pdfFilePath.getD m.pdfFilePath
    status := p.status.getD m.status
    createdAt := m.createdAt
    updatedAt := now
    completedAt := p.completedAt.getD m.completedAt }

/-- DbStorage.getFinancialModel: SELECT WHERE id = id LIMIT 1. -/
def getFinancialModel (st : Storage) (id : String) : Option FinancialModel :=
  (st.financialModels.filter (fun m => decide (m.id = id))).head?

/-- DbStorage.updateFinancialModel: UPDATE the matching rows, RETURNING
the first updated row (undefined when no row matched). -/
def updateFinancialModel (st : Storage) (id : String) (p : ModelPatch) (now : ℕ) :
    Storage × Option FinancialModel :=
  let models := st.financialModels.map
    (fun m => if m.id = id then applyPatch m p now else m)
  ({ st with financialModels := models },
   (models.filter (fun m => decide (m.id = id))).head?)

/-- DbStorage.createModelVersion (storage.ts lines 94-121): requires the
model to exist, numbers the version as count of existing versions for
that model plus one, and snapshots the model's input parameters,
artifact and excel file path. -/
def createModelVersion (st : Storage) (modelId : String) (changeDescription : Option String)
    (newId : String) (now : ℕ) : Except String (Storage × ModelVersion) :=
  match getFinancialModel st modelId with
  | none => Except.error "Model not found"
  | some model =>
    let v : ModelVersion :=
      { id := newId
        modelId := modelId
        versionNumber :=
          (st.modelVersions.filter (fun w => decide (w.modelId = modelId))).length + 1
        businessIdea := model.businessIdea
        selectedSector := model.selectedSector
        startupCost := model.startupCost
        monthlyRevenue := model.monthlyRevenue
        grossMargin := model.grossMargin
        operatingExpenses := model.operatingExpenses
        customAssumptions := model.customAssumptions
        generatedModel := model.generatedModel
        excelFilePath := model.excelFilePath
        changeDescription := changeDescription
        createdAt := now }
    Except.ok ({ st with modelVersions := st.modelVersions ++ [v] }, v)

/-- The patch carrying a version's snapshot fields back onto the live
model (the nine fields snapshotted by createModelVersion). -/
def snapshotPatch (v : ModelVersion) : ModelPatch :=
  { emptyPatch with
    businessIdea := some v.businessIdea
    selectedSector := some v.selectedSector
    startupCost := some v.startupCost
    monthlyRevenue := some v.monthlyRevenue
    grossMargin := some v.grossMargin
    operatingExpenses := some v.operatingExpenses
    customAssumptions := some v.customAssumptions
    generatedModel := some v.generatedModel
    excelFilePath := some v.excelFilePath }

/-- Modelled from the spec: DbStorage.restoreVersion is invoked by the
restore route (src/server/routes.ts line 182) but, like
docx-generator.ts, it is not implemented in the server sources
(src/server/storage.ts has no such method). Per the spec it looks the
model and the version up, reports not-found when either id is unknown,
and copies the version's snapshot fields back onto the live model
through updateFinancialModel, without touching the version table. -/
def restoreVersion (st : Storage) (modelId versionId : String) (now : ℕ) :
    Except String (Storage × FinancialModel) :=
  match getFinancialModel st modelId with
  | none => Except.error "Model not found"
  | some _ =>
    match (st.modelVersions.filter
        (fun v => decide (v.id = versionId) && decide (v.modelId = modelId))).head? with
    | none => Except.error "Version not found"
    | some v =>
      let result := updateFinancialModel st modelId (snapshotPatch v) now
      match result.2 with
      | some updated => Except.ok (result.1, updated)
      | none => Except.error "Model not found"

/-- The request body of POST scenarios as far as the zod schema sees it
(well-typed fields; name may be missing). -/
structure ScenarioBody : Type where
  name : Option String
  description : Option String
  startupCost : Option ℚ
  monthlyRevenue : Option ℚ
  grossMargin : Option ℚ
  operatingExpenses : Option ℚ
  customAssumptions : Option String
deriving DecidableEq

/-- DbStorage.createScenario: plain INSERT. -/
def createScenario (st : Storage) (sc : Scenario) : Storage :=
  { st with scenarios := st.scenarios ++ [sc] }

/-- The POST scenarios route (src/server/routes.ts lines 206-239): the
zod schema requires only a non-empty name string; the numeric fields
are plain optional numbers with no range bound; on schema failure a 400
is returned and nothing is persisted. Result: (http status, new
storage, created scenario). -/
def createScenarioRoute (st : Storage) (modelId : String) (b : ScenarioBody)
    (newId : String) : ℕ × Storage × Option Scenario :=
  match b.name with
  | none => (400, st, none)
  | some n =>
    if n.length = 0 then (400, st, none)
    else
      let sc : Scenario :=
        { id := newId
          modelId := modelId
          name := n
          description := b.description
          startupCost := b.startupCost
          monthlyRevenue := b.monthlyRevenue
          grossMargin := b.grossMargin
          operatingExpenses := b.operatingExpenses
          customAssumptions := b.customAssumptions }
      (200, createScenario st sc, some sc)

/-- One segment of an Express route pattern: a literal or a named
parameter. -/
inductive Seg : Type
  | lit : String → Seg
  | param : String → Seg
deriving DecidableEq

/-- Segment matching: a parameter matches anything, a literal only
itself. -/
def segMatches : Seg → String → Bool
  | Seg.lit s, t => decide (s = t)
  | Seg.param _, _ => true

/-- The complete route table registered by registerRoutes
(src/server/routes.ts lines 10-300), in registration order. -/
def registeredRoutes : List (String × List Seg) :=
  [ ("GET", [Seg.lit "api", Seg.lit "sectors"]),
    ("POST", [Seg.lit "api", Seg.lit "generate-model"]),
    ("GET", [Seg.lit "api", Seg.lit "models"]),
    ("GET", [Seg.lit "api", Seg.lit "models", Seg.param "id"]),
    ("GET", [Seg.lit "api", Seg.lit "download", Seg.param "id"]),
    ("GET", [Seg.lit "api", Seg.lit "download-docx", Seg.param "id"]),
    ("GET", [Seg.lit "api", Seg.lit "models", Seg.param "id", Seg.lit "versions"]),
    ("POST", [Seg.lit "api", Seg.lit "models", Seg.param "id", Seg.lit "versions"]),
    ("POST", [Seg.lit "api", Seg.lit "models", Seg.param "modelId", Seg.lit "versions",
      Seg.param "versionId", Seg.lit "restore"]),
    ("GET", [Seg.lit "api", Seg.lit "models", Seg.param "id", Seg.lit "scenarios"]),
    ("POST", [Seg.lit "api", Seg.lit "models", Seg.param "id", Seg.lit "scenarios"]),
    ("PUT", [Seg.lit "api", Seg.lit "scenarios", Seg.param "id"]),
    ("DELETE", [Seg.lit "api", Seg.lit "scenarios", Seg.param "id"]) ]

/-- Whether one registered route serves a request. -/
def routeMatches (route : String × List Seg) (method : String) (path : List String) : Bool :=
  decide (route.1 = method) && decide (route.2.length = path.length) &&
    (List.zip route.2 path).all (fun pq => segMatches pq.1 pq.2)

/-- Whether any registered route serves a request; a request matching
no route gets the Express default 404. -/
def routeExists (method : String) (path : List String) : Bool :=
  registeredRoutes.any (fun r => routeMatches r method path)

/-- The status patch written by the catch handler of
processModelGeneration (src/server/routes.ts lines 352-357). -/
def failPatch : ModelPatch := { emptyPatch with status := some "failed" }

/-- The completion patch written on success (src/server/routes.ts lines
342-349). -/
def completePatch (g : GeneratedModel) (excelPath docxPath : String) (ts : ℕ) : ModelPatch :=
  { emptyPatch with
    generatedModel := some (some g)
    excelFilePath := some (some excelPath)
    pdfFilePath := some (some docxPath)
    status := some "completed"
    completedAt := some (some ts) }

/-- generateFinancialModel (src/server/gemini-service.ts lines 314-333):
analyst output then modeler output then the validator; the outcome of
each external call is a parameter of the embedding. -/
def generateFinancialModelRun (analysis : Except String String)
    (modeler : Except String GeneratedModel) : Except String GeneratedModel :=
  match analysis with
  | Except.error e => Except.error e
  | Except.ok _ =>
    match modeler with
    | Except.error e => Except.error e
    | Except.ok g => runValidatorAgent g

/-- processModelGeneration (src/server/routes.ts lines 302-358): run the
pipeline and both renderers; on the first failure the catch block
writes only the failed status, on success the completion patch. -/
def processModelGeneration (st : Storage) (modelId : String)
    (analysis : Except String String) (modeler : Except String GeneratedModel)
    (excel : Except String String) (docx : Except String String) (now : ℕ) : Storage :=
  match generateFinancialModelRun analysis modeler with
  | Except.error _ => (updateFinancialModel st modelId failPatch now).1
  | Except.ok g =>
    match excel with
    | Except.error _ => (updateFinancialModel st modelId failPatch now).1
    | Except.ok excelPath =>
      match docx with
      | Except.error _ => (updateFinancialModel st modelId failPatch now).1
      | Except.ok docxPath =>
        (updateFinancialModel st modelId (completePatch g excelPath docxPath now) now).1

/-- A concrete model row. -/
def fmW : FinancialModel :=
  { id := "m1", businessIdea := "a coffee cart", selectedSector := some "food",
    startupCost := some 5000, monthlyRevenue := some 1200, grossMargin := some 60,
    operatingExpenses := some 300, customAssumptions := none,
    generatedModel := none, excelFilePath := some "files/m1.xlsx",
    pdfFilePath := some "files/m1.docx", status := "completed",
    createdAt := 0, updatedAt := 0, completedAt := some 1 }

/-- A concrete storage state holding just fmW. -/
def stW : Storage := { financialModels := [fmW], modelVersions := [], scenarios := [] }

/-- The empty storage state. -/
def st0 : Storage := { financialModels := [], modelVersions := [], scenarios := [] }

/-- A scenario request body with grossMargin 150, outside 0-100. -/
def bC8 : ScenarioBody :=
  { name := some "Aggressive", description := none, startupCost := none,
    monthlyRevenue := none, grossMargin := some 150, operatingExpenses := none,
    customAssumptions := none }

/-! ## General lemmas about the padding loop -/

theorem padGo_spec {α : Type} (next : α → ℚ → α) :
    ∀ (fuel : ℕ) (l : List α), l ≠ [] → 12 - l.length < fuel →
    ∃ L, padGo next fuel l = Except.ok L ∧ L.length = max l.length 12 ∧
      L.take l.length = l ∧
      ∀ i (h : i + 1 < L.length), l.length ≤ i + 1 →
        L.get ⟨i + 1, h⟩ = next (L.get ⟨i, Nat.lt_of_succ_lt h⟩) ((i : ℚ) + 2) := by
  intro fuel
  induction fuel with
  | zero => intro l _ hf; omega
  | succ k ih =>
    intro l hne hf
    by_cases hlt : l.length < 12
    · have hlast : l.getLast? = some (l.getLast hne) :=
        List.getLast?_eq_getLast_of_ne_nil hne
      have hstep : padGo next (k + 1) l =
          padGo next k (l ++ [next (l.getLast hne) ((l.length : ℚ) + 1)]) := by
        simp [padGo, if_pos hlt, hlast]
      have hlen2 : (l ++ [next (l.getLast hne) ((l.length : ℚ) + 1)]).length = l.length + 1 := by
        simp
      obtain ⟨L, hGo, hLen, hTake, hChain⟩ :=
        ih (l ++ [next (l.getLast hne) ((l.length : ℚ) + 1)]) (by simp) (by omega)
      rw [hlen2] at hLen
      rw [hlen2] at hTake
      have hL12 : L.length = 12 := by
        rw [hLen]; exact Nat.max_eq_right (by omega)
      refine ⟨L, by rw [hstep]; exact hGo, ?_, ?_, ?_⟩
      · rw [hL12]; exact (Nat.max_eq_right (by omega)).symm
      · have h1 : (L.take (l.length + 1)).take l.length = L.take l.length := by
          rw [List.take_take]; congr 1; exact Nat.min_eq_left (by omega)
        rw [← h1, hTake, List.take_left]
      · intro i h hge
        by_cases hup : l.length + 1 ≤ i + 1
        · exact hChain i h (by rw [hlen2]; exact hup)
        · have hi1 : i + 1 = l.length := by omega
          have hbig : i + 1 < L.length := h
          have hiLt : i < l.length := by omega
          have hxL : L.get ⟨i + 1, h⟩ = next (l.getLast hne) ((l.length : ℚ) + 1) :=
            (List.get_eq_getElem L ⟨i + 1, h⟩).trans
              ((List.getElem_take' L h (show i + 1 < l.length + 1 by omega)).trans
                ((List.getElem_of_eq hTake (by simp [List.length_take]; omega)).trans
                  (List.getElem_concat_length l _ (i + 1) hi1 (by rw [hlen2]; omega))))
          have hlastElem : l.get ⟨i, hiLt⟩ = l.getLast hne := by
            rw [List.get_eq_getElem, List.getLast_eq_getElem l hne]
            congr 1
            show i = l.length - 1
            omega
          have hgi : L.get ⟨i, Nat.lt_of_succ_lt h⟩ = l.getLast hne :=
            (List.get_eq_getElem L ⟨i, Nat.lt_of_succ_lt h⟩).trans
              ((List.getElem_take' L (Nat.lt_of_succ_lt h) (show i < l.length + 1 by omega)).trans
                ((List.getElem_of_eq hTake (by simp [List.length_take]; omega)).trans
                  ((List.getElem_append_left hiLt).trans
                    ((List.get_eq_getElem l ⟨i, hiLt⟩).symm.trans hlastElem))))
          rw [hxL, hgi]
          congr 1
          have : ((i : ℚ) + 1) = (l.length : ℚ) := by
            rw [← hi1]; push_cast; ring
          linarith
    · refine ⟨l, by simp [padGo, hlt], (Nat.max_eq_left (by omega)).symm,
        List.take_length l, ?_⟩
      intro i h hge
      exact absurd hge (by omega)


/-- The padding loop started on an empty array throws at once: reading
the last element of an empty array yields undefined and the property
access throws. -/
theorem padLoop_nil {α : Type} (next : α → ℚ → α) :
    padLoop next ([] : List α) =
      Except.error "TypeError: Cannot read properties of undefined" := rfl

/-- Instantiation of the loop invariant at the fuel actually used by
padLoop: any non-empty array is padded to length max n 12 with the
original entries as a prefix and every entry from position n on derived
from its predecessor by the next function. -/
theorem padLoop_spec {α : Type} (next : α → ℚ → α) (l : List α) (hne : l ≠ []) :
    ∃ L, padLoop next l = Except.ok L ∧ L.length = max l.length 12 ∧
      L.take l.length = l ∧
      ∀ i (h : i + 1 < L.length), l.length ≤ i + 1 →
        L.get ⟨i + 1, h⟩ = next (L.get ⟨i, Nat.lt_of_succ_lt h⟩) ((i : ℚ) + 2) := by
  have hpos : 0 < l.length := List.length_pos.mpr hne
  exact padGo_spec next 12 l hne (by omega)

/-- Success of the padding loop forces a non-empty input and an output
of length max n 12. -/
theorem padLoop_ok_length {α : Type} (next : α → ℚ → α) (l L : List α)
    (h : padLoop next l = Except.ok L) :
    l ≠ [] ∧ L.length = max l.length 12 := by
  rcases List.eq_nil_or_concat l with rfl | _
  · rw [padLoop_nil] at h
    exact absurd h (by simp)
  · have hne : l ≠ [] := by rintro rfl; simp_all
    obtain ⟨L2, hok, hlen, -, -⟩ := padLoop_spec next l hne
    rw [h] at hok
    exact ⟨hne, by rw [Except.ok.injEq] at hok; rw [hok]; exact hlen⟩

/-! ## C1 -/

/-- C1: for a monthly revenue array with n entries, 1 <= n < 12, the
validation stage pads it to exactly 12 entries, keeping the given
entries and deriving each appended entry from the immediately preceding
entry (present or previously synthesized) by the multipliers 1.05 on
revenue, 1.03 on costs and 1.07 on grossProfit; identically for the
cash-flow array with 1.05 on inflow, 1.03 on outflow, 1.07 on
netCashFlow, and cumulativeCash equal to the preceding cumulativeCash
plus the newly synthesized netCashFlow. -/
theorem validator_monthly_padding (rl : List RevenueMonth) (cl : List CashFlowMonth)
    (hr1 : 1 ≤ rl.length) (hr2 : rl.length < 12)
    (hc1 : 1 ≤ cl.length) (hc2 : cl.length < 12) :
    ∃ RL CL, padLoop nextRev rl = Except.ok RL ∧ padLoop nextCF cl = Except.ok CL ∧
      RL.length = 12 ∧ CL.length = 12 ∧
      RL.take rl.length = rl ∧ CL.take cl.length = cl ∧
      (∀ i (h : i + 1 < RL.length), rl.length ≤ i + 1 →
        (RL.get ⟨i + 1, h⟩).revenue = (RL.get ⟨i, Nat.lt_of_succ_lt h⟩).revenue * 1.05 ∧
        (RL.get ⟨i + 1, h⟩).costs = (RL.get ⟨i, Nat.lt_of_succ_lt h⟩).costs * 1.03 ∧
        (RL.get ⟨i + 1, h⟩).grossProfit = (RL.get ⟨i, Nat.lt_of_succ_lt h⟩).grossProfit * 1.07) ∧
      (∀ i (h : i + 1 < CL.length), cl.length ≤ i + 1 →
        (CL.get ⟨i + 1, h⟩).inflow = (CL.get ⟨i, Nat.lt_of_succ_lt h⟩).inflow * 1.05 ∧
        (CL.get ⟨i + 1, h⟩).outflow = (CL.get ⟨i, Nat.lt_of_succ_lt h⟩).outflow * 1.03 ∧
        (CL.get ⟨i + 1, h⟩).netCashFlow = (CL.get ⟨i, Nat.lt_of_succ_lt h⟩).netCashFlow * 1.07 ∧
        (CL.get ⟨i + 1, h⟩).cumulativeCash =
          (CL.get ⟨i, Nat.lt_of_succ_lt h⟩).cumulativeCash + (CL.get ⟨i + 1, h⟩).netCashFlow) := by
  obtain ⟨RL, hRok, hRlen, hRtake, hRchain⟩ :=
    padLoop_spec nextRev rl (List.length_pos.mp (by omega))
  obtain ⟨CL, hCok, hClen, hCtake, hCchain⟩ :=
    padLoop_spec nextCF cl (List.length_pos.mp (by omega))
  refine ⟨RL, CL, hRok, hCok,
    by rw [hRlen]; exact Nat.max_eq_right (by omega),
    by rw [hClen]; exact Nat.max_eq_right (by omega),
    hRtake, hCtake, ?_, ?_⟩
  · intro i h hge
    rw [hRchain i h hge]
    exact ⟨rfl, rfl, rfl⟩
  · intro i h hge
    rw [hCchain i h hge]
    exact ⟨rfl, rfl, rfl, rfl⟩

/-- Instantiation of the padding theorem at concrete one-entry arrays. -/
theorem validator_monthly_padding_witness :
    ∃ RL CL, padLoop nextRev c1rl = Except.ok RL ∧ padLoop nextCF c1cl = Except.ok CL ∧
      RL.length = 12 ∧ CL.length = 12 ∧
      RL.take c1rl.length = c1rl ∧ CL.take c1cl.length = c1cl ∧
      (∀ i (h : i + 1 < RL.length), c1rl.length ≤ i + 1 →
        (RL.get ⟨i + 1, h⟩).revenue = (RL.get ⟨i, Nat.lt_of_succ_lt h⟩).revenue * 1.05 ∧
        (RL.get ⟨i + 1, h⟩).costs = (RL.get ⟨i, Nat.lt_of_succ_lt h⟩).costs * 1.03 ∧
        (RL.get ⟨i + 1, h⟩).grossProfit = (RL.get ⟨i, Nat.lt_of_succ_lt h⟩).grossProfit * 1.07) ∧
      (∀ i (h : i + 1 < CL.length), c1cl.length ≤ i + 1 →
        (CL.get ⟨i + 1, h⟩).inflow = (CL.get ⟨i, Nat.lt_of_succ_lt h⟩).inflow * 1.05 ∧
        (CL.get ⟨i + 1, h⟩).outflow = (CL.get ⟨i, Nat.lt_of_succ_lt h⟩).outflow * 1.03 ∧
        (CL.get ⟨i + 1, h⟩).netCashFlow = (CL.get ⟨i, Nat.lt_of_succ_lt h⟩).netCashFlow * 1.07 ∧
        (CL.get ⟨i + 1, h⟩).cumulativeCash =
          (CL.get ⟨i, Nat.lt_of_succ_lt h⟩).cumulativeCash + (CL.get ⟨i + 1, h⟩).netCashFlow) :=
  validator_monthly_padding c1rl c1cl (by decide) (by decide) (by decide) (by decide)

theorem clampBreakEven_fields (km : KeyMetrics) :
    (clampBreakEven km).year1TotalRevenue = km.year1TotalRevenue ∧
    (clampBreakEven km).year1NetProfit = km.year1NetProfit ∧
    (clampBreakEven km).roi = km.roi ∧
    (clampBreakEven km).paybackPeriod = km.paybackPeriod ∧
    (clampBreakEven km).projectedYear5Revenue = km.projectedYear5Revenue ∧
    (clampBreakEven km).projectedYear5NetProfit = km.projectedYear5NetProfit := by
  unfold clampBreakEven
  dsimp only
  split_ifs <;> simp

theorem clampBreakEven_result (km : KeyMetrics) :
    (clampBreakEven km).breakEvenMonth =
      match km.breakEvenMonth with
      | JsNum.num q => JsNum.num (min (max 1 q) 24)
      | JsNum.inf => JsNum.num 24
      | JsNum.neginf => JsNum.num 1
      | JsNum.nan => JsNum.nan
      | JsNum.undef => JsNum.undef := by
  cases hbe : km.breakEvenMonth with
  | num q =>
    by_cases h1 : q < 1
    · have hmax : max (1 : ℚ) q = 1 := max_eq_left (le_of_lt h1)
      have hmin : min (1 : ℚ) 24 = 1 := min_eq_left (by norm_num)
      simp only [clampBreakEven, hbe, jsLt, jsGt, decide_eq_true_eq, if_pos h1]
      norm_num [hmax, hmin]
    · by_cases h2 : (24 : ℚ) < q
      · have hmax : max (1 : ℚ) q = q := max_eq_right (by linarith)
        have hmin : min q (24 : ℚ) = 24 := min_eq_right (le_of_lt h2)
        simp only [clampBreakEven, hbe, jsLt, jsGt, decide_eq_true_eq, if_neg h1]
        norm_num [h2, hmax, hmin, hbe]
      · have hmax : max (1 : ℚ) q = q := max_eq_right (by linarith [not_lt.mp h1])
        have hmin : min q (24 : ℚ) = q := min_eq_left (not_lt.mp h2)
        simp only [clampBreakEven, hbe, jsLt, jsGt, decide_eq_true_eq, if_neg h1]
        norm_num [h2, hmax, hmin, hbe]
  | inf => simp [clampBreakEven, hbe, jsLt, jsGt]
  | neginf => norm_num [clampBreakEven, hbe, jsLt, jsGt]
  | nan => simp [clampBreakEven, hbe, jsLt, jsGt]
  | undef => simp [clampBreakEven, hbe, jsLt, jsGt]

theorem clampBreakEven_same (km km2 : KeyMetrics)
    (h : km2.breakEvenMonth = km.breakEvenMonth) :
    (clampBreakEven km2).breakEvenMonth = (clampBreakEven km).breakEvenMonth := by
  rw [clampBreakEven_result, clampBreakEven_result, h]

theorem clampBreakEven_range (km : KeyMetrics) :
    (∀ q, km.breakEvenMonth = JsNum.num q →
      ∃ q2, (clampBreakEven km).breakEvenMonth = JsNum.num q2 ∧ 1 ≤ q2 ∧ q2 ≤ 24) ∧
    (km.breakEvenMonth = JsNum.inf → (clampBreakEven km).breakEvenMonth = JsNum.num 24) ∧
    (km.breakEvenMonth = JsNum.neginf → (clampBreakEven km).breakEvenMonth = JsNum.num 1) := by
  refine ⟨?_, ?_, ?_⟩
  · intro q hq
    refine ⟨min (max 1 q) 24, ?_, ?_, ?_⟩
    · rw [clampBreakEven_result, hq]
    · exact le_min (le_max_left 1 q) (by norm_num)
    · exact min_le_right _ _
  · intro hq
    rw [clampBreakEven_result, hq]
  · intro hq
    rw [clampBreakEven_result, hq]

theorem finalizeMetrics_frame (m m' : GeneratedModel)
    (h : finalizeMetrics m = Except.ok m') :
    m'.annualProjections = m.annualProjections ∧
    m'.revenueProjections = m.revenueProjections ∧
    m'.cashFlow = m.cashFlow ∧ ∃ km', m'.keyMetrics = some km' := by
  unfold finalizeMetrics at h
  split at h
  · split at h
    · split at h
      · exact absurd h (by simp)
      · rw [Except.ok.injEq] at h
        subst h
        exact ⟨rfl, rfl, rfl, _, rfl⟩
    · split at h
      · exact absurd h (by simp)
      · rw [Except.ok.injEq] at h
        subst h
        exact ⟨rfl, rfl, rfl, _, rfl⟩
  · split at h
    · exact absurd h (by simp)
    · rw [Except.ok.injEq] at h
      subst h
      exact ⟨rfl, rfl, rfl, _, rfl⟩

theorem finalizeMetrics_some (m : GeneratedModel) (ap : List AnnualProjection)
    (km : KeyMetrics) (hap : m.annualProjections = some ap) (h5 : ap.length = 5)
    (hkm : m.keyMetrics = some km) :
    ∃ km', finalizeMetrics m = Except.ok { m with keyMetrics := some km' } ∧
      km'.breakEvenMonth = (clampBreakEven km).breakEvenMonth ∧
      km'.projectedYear5Revenue =
        (if !jsTruthy km.projectedYear5Revenue || !jsIsFinite km.projectedYear5Revenue
         then JsNum.num (ap.get ⟨4, by omega⟩).revenue
         else km.projectedYear5Revenue) ∧
      km'.projectedYear5NetProfit =
        (if !jsTruthy km.projectedYear5NetProfit || !jsIsFinite km.projectedYear5NetProfit
         then JsNum.num (ap.get ⟨4, by omega⟩).netProfit
         else km.projectedYear5NetProfit) := by
  unfold finalizeMetrics
  rw [hap]
  dsimp only
  rw [dif_pos h5, hkm]
  dsimp only
  by_cases c1 : (!jsTruthy km.projectedYear5Revenue || !jsIsFinite km.projectedYear5Revenue) = true
  · rw [if_pos c1]
    by_cases c2 : (!jsTruthy km.projectedYear5NetProfit || !jsIsFinite km.projectedYear5NetProfit) = true
    · rw [if_pos (by simpa using c2)]
      refine ⟨_, rfl, ?_, ?_, ?_⟩
      · apply clampBreakEven_same
        rfl
      · rw [(clampBreakEven_fields _).2.2.2.2.1, if_pos c1]
      · rw [(clampBreakEven_fields _).2.2.2.2.2, if_pos c2]
    · rw [if_neg (by simpa using c2)]
      refine ⟨_, rfl, ?_, ?_, ?_⟩
      · apply clampBreakEven_same
        rfl
      · rw [(clampBreakEven_fields _).2.2.2.2.1, if_pos c1]
      · rw [(clampBreakEven_fields _).2.2.2.2.2, if_neg c2]
  · rw [if_neg c1]
    by_cases c2 : (!jsTruthy km.projectedYear5NetProfit || !jsIsFinite km.projectedYear5NetProfit) = true
    · rw [if_pos c2]
      refine ⟨_, rfl, ?_, ?_, ?_⟩
      · apply clampBreakEven_same
        rfl
      · rw [(clampBreakEven_fields _).2.2.2.2.1, if_neg c1]
      · rw [(clampBreakEven_fields _).2.2.2.2.2, if_pos c2]
    · rw [if_neg c2]
      refine ⟨_, rfl, ?_, ?_, ?_⟩
      · apply clampBreakEven_same
        rfl
      · rw [(clampBreakEven_fields _).2.2.2.2.1, if_neg c1]
      · rw [(clampBreakEven_fields _).2.2.2.2.2, if_neg c2]

theorem validateAnnual_early (m : GeneratedModel)
    (hneed : annualNeedsFallback m.annualProjections = true)
    (hval : hasValidYear1Data m = false) :
    validateAnnual m = Except.ok { m with annualProjections := some [] } := by
  unfold validateAnnual
  rw [if_pos hneed]
  cases hkm : m.keyMetrics with
  | none => rfl
  | some km =>
    unfold hasValidYear1Data at hval
    rw [hkm] at hval
    dsimp only at hval
    dsimp only
    cases hr : km.year1TotalRevenue <;> cases hp : km.year1NetProfit <;>
      rw [hr, hp] at hval <;> dsimp only at hval ⊢ <;> try rfl
    rw [if_neg (by simpa using hval)]

theorem hasValid_iff (m : GeneratedModel) :
    hasValidYear1Data m = true ↔ ∃ km r p, m.keyMetrics = some km ∧
      km.year1TotalRevenue = JsNum.num r ∧ km.year1NetProfit = JsNum.num p ∧ p ≤ r := by
  constructor
  · intro hv
    cases hkm : m.keyMetrics with
    | none =>
      unfold hasValidYear1Data at hv
      rw [hkm] at hv
      simp at hv
    | some km =>
      unfold hasValidYear1Data at hv
      rw [hkm] at hv
      dsimp only at hv
      cases hr : km.year1TotalRevenue <;> cases hp : km.year1NetProfit <;>
        rw [hr, hp] at hv <;> simp at hv
      exact ⟨km, _, _, rfl, hr, hp, hv⟩
  · rintro ⟨km, r, p, hkm, hr, hp, hrp⟩
    unfold hasValidYear1Data
    rw [hkm]
    dsimp only
    rw [hr, hp]
    simpa using hrp

theorem validateAnnual_valid (m : GeneratedModel) (km : KeyMetrics) (r p : ℚ)
    (hneed : annualNeedsFallback m.annualProjections = true)
    (hkm : m.keyMetrics = some km) (hr : km.year1TotalRevenue = JsNum.num r)
    (hp : km.year1NetProfit = JsNum.num p) (hrp : p ≤ r) :
    validateAnnual m = finalizeMetrics
      { m with annualProjections := some (fallbackProjections r p), keyMetrics := some km } := by
  unfold validateAnnual
  rw [if_pos hneed, hkm]
  dsimp only
  rw [hr, hp]
  dsimp only
  rw [if_pos hrp]

/-! ## C2 -/

/-- C2: when the annual-projection array is absent or not of length 5,
the validator reconstructs it exactly when both year-1 key metrics are
finite numbers with revenue at least net profit; the reconstruction is
the fixed five-entry fallback (year 1 from the key metrics, years 2-5
by the multipliers 1.4 1.9 2.5 3.2 on revenue and 1.3 1.6 2.0 2.5 on
expenses, gross and net profit equal to revenue minus expenses); when
the condition fails the array is set empty and no error is raised. -/
theorem validator_annual_fallback (m : GeneratedModel)
    (hneed : annualNeedsFallback m.annualProjections = true) :
    (hasValidYear1Data m = false →
      validateAnnual m = Except.ok { m with annualProjections := some [] }) ∧
    (∀ km r p, m.keyMetrics = some km → km.year1TotalRevenue = JsNum.num r →
      km.year1NetProfit = JsNum.num p → p ≤ r →
      ∃ m', validateAnnual m = Except.ok m' ∧
        m'.annualProjections = some (fallbackProjections r p) ∧
        m'.revenueProjections = m.revenueProjections ∧ m'.cashFlow = m.cashFlow) ∧
    (hasValidYear1Data m = true ↔ ∃ km r p, m.keyMetrics = some km ∧
      km.year1TotalRevenue = JsNum.num r ∧ km.year1NetProfit = JsNum.num p ∧ p ≤ r) ∧
    (∀ r p : ℚ, ∀ a ∈ fallbackProjections r p,
      a.grossProfit = a.revenue - a.expenses ∧ a.netProfit = a.revenue - a.expenses) := by
  refine ⟨fun hval => validateAnnual_early m hneed hval, ?_, hasValid_iff m, ?_⟩
  · intro km r p hkm hr hp hrp
    rw [validateAnnual_valid m km r p hneed hkm hr hp hrp]
    obtain ⟨km', hfin, -, -, -⟩ :=
      finalizeMetrics_some
        { m with annualProjections := some (fallbackProjections r p), keyMetrics := some km }
        (fallbackProjections r p) km rfl rfl rfl
    exact ⟨_, hfin, by simp, by simp, by simp⟩
  · intro r p a ha
    simp only [fallbackProjections, List.mem_cons, List.not_mem_nil, or_false] at ha
    rcases ha with rfl | rfl | rfl | rfl | rfl <;> constructor <;> dsimp <;> ring

/-- Instantiation of the fallback theorem at the concrete artifact mC2:
the reconstructed year-2 entry has revenue 168000 and expenses 124800,
and the full five-entry array is as computed. -/
theorem validator_annual_fallback_witness :
    ∃ m', validateAnnual mC2 = Except.ok m' ∧
      m'.annualProjections = some (fallbackProjections 120000 24000) ∧
      fallbackProjections 120000 24000 =
        [ { year := 1, revenue := 120000, expenses := 96000,
            grossProfit := 24000, netProfit := 24000 },
          { year := 2, revenue := 168000, expenses := 124800,
            grossProfit := 43200, netProfit := 43200 },
          { year := 3, revenue := 228000, expenses := 153600,
            grossProfit := 74400, netProfit := 74400 },
          { year := 4, revenue := 300000, expenses := 192000,
            grossProfit := 108000, netProfit := 108000 },
          { year := 5, revenue := 384000, expenses := 240000,
            grossProfit := 144000, netProfit := 144000 } ] := by
  obtain ⟨m', hok, hann, -, -⟩ :=
    (validator_annual_fallback mC2 rfl).2.1 kmC2 120000 24000 rfl rfl rfl (by norm_num)
  exact ⟨m', hok, hann, by norm_num [fallbackProjections, AnnualProjection.mk.injEq]⟩

theorem annualNeedsFallback_false_iff (o : Option (List AnnualProjection)) :
    annualNeedsFallback o = false ↔ ∃ ap, o = some ap ∧ ap.length = 5 := by
  cases o <;> simp [annualNeedsFallback]

theorem runValidatorAgent_ok_split (m m' : GeneratedModel)
    (hok : runValidatorAgent m = Except.ok m') :
    ∃ rl cl rl2 cl2, m.revenueProjections = some rl ∧ m.cashFlow = some cl ∧
      padLoop nextRev rl = Except.ok rl2 ∧ padLoop nextCF cl = Except.ok cl2 ∧
      validateAnnual { m with revenueProjections := some rl2, cashFlow := some cl2 } =
        Except.ok m' := by
  unfold runValidatorAgent at hok
  split at hok
  · exact absurd hok (by simp)
  · next rl hrl =>
    split at hok
    · exact absurd hok (by simp)
    · next rl2 hrl2 =>
      split at hok
      · exact absurd hok (by simp)
      · next cl hcl =>
        split at hok
        · exact absurd hok (by simp)
        · next cl2 hcl2 => exact ⟨rl, cl, rl2, cl2, hrl, hcl, hrl2, hcl2, hok⟩

theorem finalizeMetrics_km (m m' : GeneratedModel)
    (h : finalizeMetrics m = Except.ok m') : ∃ km, m.keyMetrics = some km := by
  unfold finalizeMetrics at h
  split at h
  · split at h
    · split at h
      · exact absurd h (by simp)
      · next km hkm => exact ⟨km, hkm⟩
    · split at h
      · exact absurd h (by simp)
      · next km hkm => exact ⟨km, hkm⟩
  · split at h
    · exact absurd h (by simp)
    · next km hkm => exact ⟨km, hkm⟩

theorem validateAnnual_result (m m' : GeneratedModel)
    (h : validateAnnual m = Except.ok m') :
    m'.revenueProjections = m.revenueProjections ∧ m'.cashFlow = m.cashFlow ∧
    (m'.annualProjections = some [] ∨
      ∃ ap, m'.annualProjections = some ap ∧ ap.length = 5) := by
  unfold validateAnnual at h
  split at h
  · split at h
    · rw [Except.ok.injEq] at h
      subst h
      exact ⟨rfl, rfl, Or.inl rfl⟩
    · next km hkm =>
      split at h
      · next r p hr hp =>
        split at h
        · obtain ⟨hann, hrev, hcf, -⟩ := finalizeMetrics_frame _ _ h
          refine ⟨by rw [hrev], by rw [hcf], Or.inr ⟨fallbackProjections r p, by rw [hann], rfl⟩⟩
        · rw [Except.ok.injEq] at h
          subst h
          exact ⟨rfl, rfl, Or.inl rfl⟩
      · rw [Except.ok.injEq] at h
        subst h
        exact ⟨rfl, rfl, Or.inl rfl⟩
  · next hneed =>
    obtain ⟨ap, hap, h5⟩ := (annualNeedsFallback_false_iff m.annualProjections).mp
      (Bool.of_not_eq_true hneed)
    obtain ⟨hann, hrev, hcf, -⟩ := finalizeMetrics_frame _ _ h
    exact ⟨hrev, hcf, Or.inr ⟨ap, by rw [hann, hap], h5⟩⟩

theorem validateAnnual_ok_iff (m : GeneratedModel) :
    (∃ m', validateAnnual m = Except.ok m') ↔
      (m.keyMetrics = none → ∀ ap, m.annualProjections = some ap → ap.length ≠ 5) := by
  constructor
  · rintro ⟨m', h⟩ hkm ap hap h5
    have hneed : annualNeedsFallback m.annualProjections = false := by
      rw [annualNeedsFallback_false_iff]
      exact ⟨ap, hap, h5⟩
    unfold validateAnnual at h
    rw [if_neg (by simp [hneed])] at h
    obtain ⟨km, hkm2⟩ := finalizeMetrics_km _ _ h
    rw [hkm] at hkm2
    exact absurd hkm2 (by simp)
  · intro hcond
    cases hkm : m.keyMetrics with
    | none =>
      have hneed : annualNeedsFallback m.annualProjections = true := by
        cases hap : m.annualProjections with
        | none => rfl
        | some ap => simpa [annualNeedsFallback] using hcond hkm ap hap
      refine ⟨{ m with annualProjections := some [] }, ?_⟩
      unfold validateAnnual
      rw [if_pos hneed, hkm]
    | some km =>
      by_cases hneed : annualNeedsFallback m.annualProjections = true
      · unfold validateAnnual
        rw [if_pos hneed, hkm]
        dsimp only
        cases hr : km.year1TotalRevenue <;> cases hp : km.year1NetProfit <;>
          try exact ⟨_, rfl⟩
        next r p =>
        dsimp only
        by_cases hrp : p ≤ r
        · rw [if_pos hrp]
          obtain ⟨km', hfin, -, -, -⟩ :=
            finalizeMetrics_some
              { m with annualProjections := some (fallbackProjections r p), keyMetrics := some km }
              (fallbackProjections r p) km rfl rfl rfl
          exact ⟨_, hfin⟩
        · rw [if_neg hrp]
          exact ⟨_, rfl⟩
      · obtain ⟨ap, hap, h5⟩ :=
          (annualNeedsFallback_false_iff m.annualProjections).mp
            (Bool.of_not_eq_true hneed)
        obtain ⟨km', hfin, -, -, -⟩ := finalizeMetrics_some m ap km hap h5 hkm
        refine ⟨{ m with keyMetrics := some km' }, ?_⟩
        unfold validateAnnual
        rw [if_neg hneed]
        exact hfin

/-! ## C5 -/

/-- C5 (amended): the validator returns a repaired artifact exactly when
both monthly arrays are present and non-empty and, whenever the
key-metrics object is absent, the annual-projection array does not have
exactly 5 entries; in every other case it raises a TypeError. -/
theorem validator_success_iff (m : GeneratedModel) :
    (∃ m', runValidatorAgent m = Except.ok m') ↔
      ((∃ rl, m.revenueProjections = some rl ∧ rl ≠ []) ∧
       (∃ cl, m.cashFlow = some cl ∧ cl ≠ []) ∧
       (m.keyMetrics = none → ∀ ap, m.annualProjections = some ap → ap.length ≠ 5)) := by
  constructor
  · rintro ⟨m', hok⟩
    obtain ⟨rl, cl, rl2, cl2, hrl, hcl, hpr, hpc, hva⟩ := runValidatorAgent_ok_split m m' hok
    refine ⟨⟨rl, hrl, (padLoop_ok_length _ _ _ hpr).1⟩,
           ⟨cl, hcl, (padLoop_ok_length _ _ _ hpc).1⟩, ?_⟩
    intro hkm ap hap h5
    exact (validateAnnual_ok_iff _).mp ⟨m', hva⟩ (by simpa using hkm) ap
      (by simpa using hap) h5
  · rintro ⟨⟨rl, hrl, hrne⟩, ⟨cl, hcl, hcne⟩, hcond⟩
    obtain ⟨rl2, hpr, -, -, -⟩ := padLoop_spec nextRev rl hrne
    obtain ⟨cl2, hpc, -, -, -⟩ := padLoop_spec nextCF cl hcne
    have heq : runValidatorAgent m =
        validateAnnual { m with revenueProjections := some rl2, cashFlow := some cl2 } := by
      unfold runValidatorAgent
      rw [hrl]
      dsimp only
      rw [hpr]
      dsimp only
      rw [hcl]
      dsimp only
      rw [hpc]
    rw [heq]
    apply (validateAnnual_ok_iff _).mpr
    intro hkm ap hap
    exact hcond (by simpa using hkm) ap (by simpa using hap)

/-- C5 counterexample: on an artifact whose revenue-projection array is
present but empty the validator throws instead of repairing. -/
theorem validator_raises_counterexample :
    mC5.revenueProjections = some ([] : List RevenueMonth) ∧
    runValidatorAgent mC5 =
      Except.error "TypeError: Cannot read properties of undefined" :=
  ⟨rfl, rfl⟩

/-- Instantiation of the success characterization at a concrete
artifact with twelve-entry arrays and no key metrics. -/
theorem validator_success_witness : ∃ m', runValidatorAgent mC5w = Except.ok m' :=
  (validator_success_iff mC5w).mpr
    ⟨⟨rl12, rfl, by decide⟩, ⟨cl12, rfl, by decide⟩,
     fun _ ap hap => absurd hap (by simp [mC5w])⟩

/-! ## C3 -/

/-- C3 (amended): for every artifact the validator returns, each monthly
array has exactly max n 12 entries where n is its incoming length (so
exactly 12 whenever n was at most 12; longer arrays pass through
unchanged), and the annual-projection array has exactly 0 or exactly 5
entries. -/
theorem validator_lengths_amended (m m' : GeneratedModel)
    (hok : runValidatorAgent m = Except.ok m') :
    (∃ rl rl2, m.revenueProjections = some rl ∧ m'.revenueProjections = some rl2 ∧
      rl2.length = max rl.length 12) ∧
    (∃ cl cl2, m.cashFlow = some cl ∧ m'.cashFlow = some cl2 ∧
      cl2.length = max cl.length 12) ∧
    (m'.annualProjections = some [] ∨
      ∃ ap, m'.annualProjections = some ap ∧ ap.length = 5) := by
  obtain ⟨rl, cl, rl2, cl2, hrl, hcl, hpr, hpc, hva⟩ := runValidatorAgent_ok_split m m' hok
  obtain ⟨hrev, hcf, hann⟩ := validateAnnual_result _ _ hva
  refine ⟨⟨rl, rl2, hrl, ?_, (padLoop_ok_length _ _ _ hpr).2⟩,
         ⟨cl, cl2, hcl, ?_, (padLoop_ok_length _ _ _ hpc).2⟩, hann⟩
  · rw [hrev]
  · rw [hcf]

/-- C3 counterexample: an artifact whose revenue array has 13 entries is
returned by the validator with all 13 entries intact, not 12. -/
theorem validator_lengths_counterexample :
    ∃ m', runValidatorAgent mC3 = Except.ok m' ∧
      m'.revenueProjections = some rl13 ∧ rl13.length = 13 := by
  refine ⟨{ mC3 with annualProjections := some [] }, rfl, rfl, by decide⟩

/-- Instantiation of the amended length theorem at the 13-entry
artifact. -/
theorem validator_lengths_witness :
    ∃ rl rl2, mC3.revenueProjections = some rl ∧
      ({ mC3 with annualProjections := some [] } : GeneratedModel).revenueProjections =
        some rl2 ∧ rl2.length = max rl.length 12 :=
  (validator_lengths_amended mC3 { mC3 with annualProjections := some [] } rfl).1

theorem finalizeMetrics_not5 (m : GeneratedModel) (km : KeyMetrics)
    (hkm : m.keyMetrics = some km)
    (hnot : ∀ ap, m.annualProjections = some ap → ap.length ≠ 5) :
    finalizeMetrics m = Except.ok { m with keyMetrics := some (clampBreakEven km) } := by
  unfold finalizeMetrics
  cases hap : m.annualProjections with
  | none => rw [hkm]
  | some ap =>
    dsimp only
    rw [dif_neg (hnot ap hap), hkm]

theorem finalize_breakEven (m1 m' : GeneratedModel) (ap : List AnnualProjection)
    (km : KeyMetrics) (hva : finalizeMetrics m1 = Except.ok m')
    (hap : m1.annualProjections = some ap) (h5 : ap.length = 5)
    (hkm : m1.keyMetrics = some km) :
    ∃ km', m'.keyMetrics = some km' ∧
      km'.breakEvenMonth = (clampBreakEven km).breakEvenMonth ∧
      (∀ q, km.breakEvenMonth = JsNum.num q →
        ∃ q2, km'.breakEvenMonth = JsNum.num q2 ∧ 1 ≤ q2 ∧ q2 ≤ 24) ∧
      (km.breakEvenMonth = JsNum.inf → km'.breakEvenMonth = JsNum.num 24) ∧
      (km.breakEvenMonth = JsNum.neginf → km'.breakEvenMonth = JsNum.num 1) := by
  obtain ⟨km', hfin, hbe, -, -⟩ := finalizeMetrics_some m1 ap km hap h5 hkm
  have h2 := hfin.symm.trans hva
  rw [Except.ok.injEq] at h2
  subst h2
  refine ⟨km', rfl, hbe, ?_, ?_, ?_⟩
  · intro q hq
    obtain ⟨q2, hq2, ha, hb⟩ := (clampBreakEven_range km).1 q hq
    exact ⟨q2, hbe.trans hq2, ha, hb⟩
  · intro hq
    exact hbe.trans ((clampBreakEven_range km).2.1 hq)
  · intro hq
    exact hbe.trans ((clampBreakEven_range km).2.2 hq)

/-! ## C4 -/

/-- C4 (amended): when the validator returns an artifact it clamps the
break-even month into the interval 1 to 24 (finite numbers are clamped,
plus and minus Infinity become 24 and 1) UNLESS it took the early
return for irreparable annual projections, in which case keyMetrics is
returned entirely unchanged; a NaN or missing break-even month also
passes through the clamp unchanged. -/
theorem breakEven_clamp_amended (m m' : GeneratedModel)
    (hok : runValidatorAgent m = Except.ok m') :
    ((annualNeedsFallback m.annualProjections = true ∧ hasValidYear1Data m = false) →
      m'.keyMetrics = m.keyMetrics) ∧
    (¬(annualNeedsFallback m.annualProjections = true ∧ hasValidYear1Data m = false) →
      ∃ km km', m.keyMetrics = some km ∧ m'.keyMetrics = some km' ∧
        km'.breakEvenMonth = (clampBreakEven km).breakEvenMonth ∧
        (∀ q, km.breakEvenMonth = JsNum.num q →
          ∃ q2, km'.breakEvenMonth = JsNum.num q2 ∧ 1 ≤ q2 ∧ q2 ≤ 24) ∧
        (km.breakEvenMonth = JsNum.inf → km'.breakEvenMonth = JsNum.num 24) ∧
        (km.breakEvenMonth = JsNum.neginf → km'.breakEvenMonth = JsNum.num 1)) := by
  obtain ⟨rl, cl, rl2, cl2, hrl, hcl, hpr, hpc, hva⟩ := runValidatorAgent_ok_split m m' hok
  constructor
  · rintro ⟨hneed, hval⟩
    have heq := validateAnnual_early
      { m with revenueProjections := some rl2, cashFlow := some cl2 } hneed hval
    have h2 := heq.symm.trans hva
    rw [Except.ok.injEq] at h2
    subst h2
    rfl
  · intro hnot
    by_cases hval : hasValidYear1Data m = true
    · obtain ⟨km, r, p, hkm, hr, hp, hrp⟩ := (hasValid_iff m).mp hval
      by_cases hneed : annualNeedsFallback m.annualProjections = true
      · have heq := validateAnnual_valid
          { m with revenueProjections := some rl2, cashFlow := some cl2 } km r p
          hneed hkm hr hp hrp
        rw [heq] at hva
        obtain ⟨km', h1, h2, h3, h4, h5⟩ :=
          finalize_breakEven _ m' (fallbackProjections r p) km hva rfl rfl rfl
        exact ⟨km, km', hkm, h1, h2, h3, h4, h5⟩
      · obtain ⟨ap, hap, hlen5⟩ :=
          (annualNeedsFallback_false_iff m.annualProjections).mp (Bool.of_not_eq_true hneed)
        have heq : validateAnnual
            { m with revenueProjections := some rl2, cashFlow := some cl2 } =
            finalizeMetrics { m with revenueProjections := some rl2, cashFlow := some cl2 } := by
          unfold validateAnnual
          rw [if_neg hneed]
        rw [heq] at hva
        obtain ⟨km', h1, h2, h3, h4, h5⟩ := finalize_breakEven _ m' ap km hva hap hlen5 hkm
        exact ⟨km, km', hkm, h1, h2, h3, h4, h5⟩
    · have hval2 : hasValidYear1Data m = false := Bool.of_not_eq_true hval
      have hneed : annualNeedsFallback m.annualProjections = false := by
        by_cases hh : annualNeedsFallback m.annualProjections = true
        · exact absurd ⟨hh, hval2⟩ hnot
        · exact Bool.of_not_eq_true hh
      obtain ⟨ap, hap, hlen5⟩ :=
        (annualNeedsFallback_false_iff m.annualProjections).mp hneed
      have heq : validateAnnual
          { m with revenueProjections := some rl2, cashFlow := some cl2 } =
          finalizeMetrics { m with revenueProjections := some rl2, cashFlow := some cl2 } := by
        unfold validateAnnual
        rw [if_neg (by simp [hneed])]
      rw [heq] at hva
      obtain ⟨km, hkm⟩ := finalizeMetrics_km _ _ hva
      obtain ⟨km', h1, h2, h3, h4, h5⟩ := finalize_breakEven _ m' ap km hva hap hlen5 hkm
      exact ⟨km, km', hkm, h1, h2, h3, h4, h5⟩

/-- C4 counterexample: an artifact taking the early return is returned
with its break-even month 0 unclamped, outside the interval 1 to 24. -/
theorem breakEven_clamp_counterexample :
    ∃ m' km', runValidatorAgent mC4 = Except.ok m' ∧ m'.keyMetrics = some km' ∧
      km'.breakEvenMonth = JsNum.num 0 ∧ (0 : ℚ) < 1 :=
  ⟨{ mC4 with annualProjections := some [] }, kmC4, rfl, rfl, rfl, by norm_num⟩

/-- Instantiation of the amended clamp theorem at an artifact with
break-even month 100 on the non-early path. -/
theorem breakEven_clamp_witness :
    ∃ km km', mC4w.keyMetrics = some km ∧
      ({ mC4w with keyMetrics := some { kmC4w with breakEvenMonth := JsNum.num 24 } } : GeneratedModel).keyMetrics = some km' ∧
      km'.breakEvenMonth = (clampBreakEven km).breakEvenMonth ∧
      (∀ q, km.breakEvenMonth = JsNum.num q →
        ∃ q2, km'.breakEvenMonth = JsNum.num q2 ∧ 1 ≤ q2 ∧ q2 ≤ 24) ∧
      (km.breakEvenMonth = JsNum.inf → km'.breakEvenMonth = JsNum.num 24) ∧
      (km.breakEvenMonth = JsNum.neginf → km'.breakEvenMonth = JsNum.num 1) :=
  (breakEven_clamp_amended mC4w
      { mC4w with keyMetrics := some { kmC4w with breakEvenMonth := JsNum.num 24 } }
      rfl).2
    (fun h => absurd h.1 (by decide))

/-! ## C9 -/

/-- C9 (amended): when the annual-projection array at the key-metrics
step has exactly 5 entries, each year-5 key metric is overwritten with
the last annual entry's value exactly when the stored value is NOT a
finite non-zero number (missing, NaN, infinite, or zero - JavaScript
truthiness also drops an exact 0); a finite non-zero value is kept;
when the array does not have exactly 5 entries no backfill happens. -/
theorem year5_backfill_amended (m : GeneratedModel) (km : KeyMetrics)
    (hkm : m.keyMetrics = some km) :
    (∀ ap, m.annualProjections = some ap → ∀ h5 : ap.length = 5,
      ∃ km', finalizeMetrics m = Except.ok { m with keyMetrics := some km' } ∧
        km'.projectedYear5Revenue =
          (if jsTruthy km.projectedYear5Revenue && jsIsFinite km.projectedYear5Revenue
           then km.projectedYear5Revenue
           else JsNum.num (ap.get ⟨4, by omega⟩).revenue) ∧
        km'.projectedYear5NetProfit =
          (if jsTruthy km.projectedYear5NetProfit && jsIsFinite km.projectedYear5NetProfit
           then km.projectedYear5NetProfit
           else JsNum.num (ap.get ⟨4, by omega⟩).netProfit)) ∧
    ((∀ ap, m.annualProjections = some ap → ap.length ≠ 5) →
      ∃ km', finalizeMetrics m = Except.ok { m with keyMetrics := some km' } ∧
        km'.projectedYear5Revenue = km.projectedYear5Revenue ∧
        km'.projectedYear5NetProfit = km.projectedYear5NetProfit) ∧
    (∀ x, (jsTruthy x && jsIsFinite x) = true ↔ ∃ q, x = JsNum.num q ∧ q ≠ 0) := by
  refine ⟨?_, ?_, ?_⟩
  · intro ap hap h5
    obtain ⟨km', hfin, -, hrev, hnp⟩ := finalizeMetrics_some m ap km hap h5 hkm
    refine ⟨km', hfin, ?_, ?_⟩
    · rw [hrev]
      by_cases hc : (jsTruthy km.projectedYear5Revenue &&
          jsIsFinite km.projectedYear5Revenue) = true
      · rw [if_pos hc, if_neg (by simpa using hc)]
      · rw [if_neg hc, if_pos (by
          cases ha : jsTruthy km.projectedYear5Revenue <;>
            cases hb : jsIsFinite km.projectedYear5Revenue <;> simp_all)]
    · rw [hnp]
      by_cases hc : (jsTruthy km.projectedYear5NetProfit &&
          jsIsFinite km.projectedYear5NetProfit) = true
      · rw [if_pos hc, if_neg (by simpa using hc)]
      · rw [if_neg hc, if_pos (by
          cases ha : jsTruthy km.projectedYear5NetProfit <;>
            cases hb : jsIsFinite km.projectedYear5NetProfit <;> simp_all)]
  · intro hnot
    refine ⟨clampBreakEven km, finalizeMetrics_not5 m km hkm hnot, ?_, ?_⟩
    · exact (clampBreakEven_fields km).2.2.2.2.1
    · exact (clampBreakEven_fields km).2.2.2.2.2
  · intro x
    cases x <;> simp [jsTruthy, jsIsFinite]

/-- C9 counterexample: a present, finite projectedYear5Revenue of 0 is
overwritten with the last annual entry's revenue (500) because 0 is
falsy in JavaScript. -/
theorem year5_backfill_counterexample :
    kmC9.projectedYear5Revenue = JsNum.num 0 ∧ jsIsFinite (JsNum.num 0) = true ∧
    ∃ m' km', runValidatorAgent mC9 = Except.ok m' ∧ m'.keyMetrics = some km' ∧
      km'.projectedYear5Revenue = JsNum.num 500 :=
  ⟨rfl, rfl,
   { mC9 with keyMetrics := some { kmC9 with projectedYear5Revenue := JsNum.num 500 } },
   { kmC9 with projectedYear5Revenue := JsNum.num 500 }, rfl, rfl, rfl⟩

/-- Instantiation of the amended backfill theorem at the concrete
artifact mC9. -/
theorem year5_backfill_witness :
    ∃ km', finalizeMetrics mC9 = Except.ok { mC9 with keyMetrics := some km' } ∧
      km'.projectedYear5Revenue =
        (if jsTruthy kmC9.projectedYear5Revenue && jsIsFinite kmC9.projectedYear5Revenue
         then kmC9.projectedYear5Revenue
         else JsNum.num (ap5C9.get ⟨4, by decide⟩).revenue) ∧
      km'.projectedYear5NetProfit =
        (if jsTruthy kmC9.projectedYear5NetProfit && jsIsFinite kmC9.projectedYear5NetProfit
         then kmC9.projectedYear5NetProfit
         else JsNum.num (ap5C9.get ⟨4, by decide⟩).netProfit) :=
  (year5_backfill_amended mC9 kmC9 rfl).1 ap5C9 rfl rfl

/-! ## Storage lemmas -/

theorem updateFinancialModel_found (st : Storage) (id : String) (p : ModelPatch)
    (now : ℕ) (m : FinancialModel) (hm : getFinancialModel st id = some m) :
    (updateFinancialModel st id p now).2 = some (applyPatch m p now) := by
  unfold getFinancialModel at hm
  unfold updateFinancialModel
  dsimp only
  revert hm
  generalize st.financialModels = l
  induction l with
  | nil => intro hm; simp at hm
  | cons a t ih =>
    intro hm
    by_cases ha : a.id = id
    · rw [List.filter_cons_of_pos (by simpa using ha)] at hm
      rw [List.head?_cons, Option.some.injEq] at hm
      subst hm
      rw [List.map_cons, if_pos ha]
      rw [List.filter_cons_of_pos (by simpa [applyPatch] using ha)]
      rfl
    · rw [List.filter_cons_of_neg (by simpa using ha)] at hm
      rw [List.map_cons, if_neg ha]
      rw [List.filter_cons_of_neg (by simpa using ha)]
      exact ih hm

theorem restoreVersion_spec (st : Storage) (modelId vid : String) (now : ℕ)
    (m : FinancialModel) (v : ModelVersion)
    (hm : getFinancialModel st modelId = some m)
    (hv : (st.modelVersions.filter
      (fun w => decide (w.id = vid) && decide (w.modelId = modelId))).head? = some v) :
    restoreVersion st modelId vid now =
      Except.ok ((updateFinancialModel st modelId (snapshotPatch v) now).1,
        applyPatch m (snapshotPatch v) now) := by
  unfold restoreVersion
  rw [hm, hv]
  dsimp only
  rw [updateFinancialModel_found st modelId _ now m hm]

/-! ## C6 -/

/-- C6 (with spec-modelled restoreVersion): creating a version of an
existing model under a fresh version id and immediately restoring it
succeeds, and leaves the model's business idea, sector, the four
numeric assumptions, custom assumptions, generated artifact and both
file paths equal to their values at snapshot time; no version is
deleted. -/
theorem restore_roundtrip (st : Storage) (modelId vid : String) (cds : Option String)
    (now1 now2 : ℕ) (m : FinancialModel) (hm : getFinancialModel st modelId = some m)
    (hfresh : ∀ v ∈ st.modelVersions, v.id ≠ vid) :
    ∃ st1 v st2 m2, createModelVersion st modelId cds vid now1 = Except.ok (st1, v) ∧
      restoreVersion st1 modelId vid now2 = Except.ok (st2, m2) ∧
      m2.businessIdea = m.businessIdea ∧ m2.selectedSector = m.selectedSector ∧
      m2.startupCost = m.startupCost ∧ m2.monthlyRevenue = m.monthlyRevenue ∧
      m2.grossMargin = m.grossMargin ∧ m2.operatingExpenses = m.operatingExpenses ∧
      m2.customAssumptions = m.customAssumptions ∧
      m2.generatedModel = m.generatedModel ∧
      m2.excelFilePath = m.excelFilePath ∧ m2.pdfFilePath = m.pdfFilePath ∧
      st2.modelVersions = st1.modelVersions := by
  have hc : ∃ st1 v, createModelVersion st modelId cds vid now1 = Except.ok (st1, v) ∧
      st1 = { st with modelVersions := st.modelVersions ++ [v] } ∧
      v.id = vid ∧ v.modelId = modelId ∧
      v.businessIdea = m.businessIdea ∧ v.selectedSector = m.selectedSector ∧
      v.startupCost = m.startupCost ∧ v.monthlyRevenue = m.monthlyRevenue ∧
      v.grossMargin = m.grossMargin ∧ v.operatingExpenses = m.operatingExpenses ∧
      v.customAssumptions = m.customAssumptions ∧ v.generatedModel = m.generatedModel ∧
      v.excelFilePath = m.excelFilePath := by
    unfold createModelVersion
    rw [hm]
    exact ⟨_, _, rfl, rfl, rfl, rfl, rfl, rfl, rfl, rfl, rfl, rfl, rfl, rfl, rfl⟩
  obtain ⟨st1, v, hok, hst1, hvid, hvmid, hvb, hvs, hvc, hvm, hvg, hvo, hvca, hvgm, hve⟩ := hc
  have hm1 : getFinancialModel st1 modelId = some m := by
    rw [hst1]
    exact hm
  have hfilter : (st1.modelVersions.filter
      (fun w => decide (w.id = vid) && decide (w.modelId = modelId))).head? = some v := by
    rw [hst1]
    show ((st.modelVersions ++ [v]).filter
      (fun w => decide (w.id = vid) && decide (w.modelId = modelId))).head? = some v
    rw [List.filter_append]
    have h1 : st.modelVersions.filter
        (fun w => decide (w.id = vid) && decide (w.modelId = modelId)) = [] := by
      rw [List.filter_eq_nil_iff]
      intro w hw
      simp [hfresh w hw]
    rw [h1]
    simp [hvid, hvmid]
  have hr := restoreVersion_spec st1 modelId vid now2 m v hm1 hfilter
  refine ⟨st1, v, _, _, hok, hr, ?_, ?_, ?_, ?_, ?_, ?_, ?_, ?_, ?_, rfl, rfl⟩
  · exact hvb
  · exact hvs
  · exact hvc
  · exact hvm
  · exact hvg
  · exact hvo
  · exact hvca
  · exact hvgm
  · exact hve

/-- Instantiation of the round-trip theorem at a concrete one-model
storage state. -/
theorem restore_roundtrip_witness :
    ∃ st1 v st2 m2, createModelVersion stW "m1" none "v1" 3 = Except.ok (st1, v) ∧
      restoreVersion st1 "m1" "v1" 4 = Except.ok (st2, m2) ∧
      m2.businessIdea = fmW.businessIdea ∧ m2.selectedSector = fmW.selectedSector ∧
      m2.startupCost = fmW.startupCost ∧ m2.monthlyRevenue = fmW.monthlyRevenue ∧
      m2.grossMargin = fmW.grossMargin ∧ m2.operatingExpenses = fmW.operatingExpenses ∧
      m2.customAssumptions = fmW.customAssumptions ∧
      m2.generatedModel = fmW.generatedModel ∧
      m2.excelFilePath = fmW.excelFilePath ∧ m2.pdfFilePath = fmW.pdfFilePath ∧
      st2.modelVersions = st1.modelVersions :=
  restore_roundtrip stW "m1" "v1" none 3 4 fmW rfl (by simp [stW])

/-! ## C7 -/

/-- C7: registerRoutes installs no route that serves POST
/api/models/:id/regenerate (here probed with id abc123), although it
does serve the neighbouring version and lookup routes; the regenerate
request therefore falls through to the framework's 404. -/
theorem no_regenerate_route :
    routeExists "POST" ["api", "models", "abc123", "regenerate"] = false ∧
    routeExists "POST" ["api", "models", "abc123", "versions"] = true ∧
    routeExists "GET" ["api", "models", "abc123"] = true := by
  refine ⟨?_, ?_, ?_⟩ <;> rfl

/-! ## C8 -/

/-- C8 (amended): the scenario-creation route validates only the name:
a missing or empty name is rejected with 400 and nothing persisted,
while any well-typed body with a non-empty name - including a
grossMargin outside 0 to 100 - is accepted with 200 and persisted
verbatim. -/
theorem scenario_create_amended (st : Storage) (modelId newId : String) (b : ScenarioBody) :
    (b.name = none → createScenarioRoute st modelId b newId = (400, st, none)) ∧
    (∀ n, b.name = some n → n.length = 0 →
      createScenarioRoute st modelId b newId = (400, st, none)) ∧
    (∀ n, b.name = some n → n.length ≠ 0 →
      ∃ sc, createScenarioRoute st modelId b newId =
          (200, { st with scenarios := st.scenarios ++ [sc] }, some sc) ∧
        sc.name = n ∧ sc.modelId = modelId ∧ sc.grossMargin = b.grossMargin ∧
        sc.startupCost = b.startupCost ∧ sc.monthlyRevenue = b.monthlyRevenue ∧
        sc.operatingExpenses = b.operatingExpenses) := by
  refine ⟨?_, ?_, ?_⟩
  · intro h
    unfold createScenarioRoute
    rw [h]
  · intro n h h0
    unfold createScenarioRoute
    rw [h]
    dsimp only
    rw [if_pos h0]
  · intro n h h0
    unfold createScenarioRoute
    rw [h]
    dsimp only
    rw [if_neg h0]
    exact ⟨_, rfl, rfl, rfl, rfl, rfl, rfl, rfl⟩

/-- C8 counterexample: a scenario body with grossMargin 150 (outside 0
to 100) is accepted with 200 and the scenario is persisted. -/
theorem scenario_margin_counterexample :
    ¬((150 : ℚ) ≤ 100) ∧
    ∃ sc, createScenarioRoute st0 "m1" bC8 "s1" =
        (200, { st0 with scenarios := st0.scenarios ++ [sc] }, some sc) ∧
      sc.grossMargin = some 150 ∧
      ((createScenarioRoute st0 "m1" bC8 "s1").2.1).scenarios.length = 1 := by
  refine ⟨by norm_num,
    ⟨{ id := "s1", modelId := "m1", name := "Aggressive", description := none,
       startupCost := none, monthlyRevenue := none, grossMargin := some 150,
       operatingExpenses := none, customAssumptions := none }, rfl, rfl, rfl⟩⟩

/-- Instantiation of the amended scenario theorem at the concrete
out-of-range body. -/
theorem scenario_create_witness :
    ∃ sc, createScenarioRoute st0 "m1" bC8 "s1" =
        (200, { st0 with scenarios := st0.scenarios ++ [sc] }, some sc) ∧
      sc.name = "Aggressive" ∧ sc.modelId = "m1" ∧ sc.grossMargin = bC8.grossMargin ∧
      sc.startupCost = bC8.startupCost ∧ sc.monthlyRevenue = bC8.monthlyRevenue ∧
      sc.operatingExpenses = bC8.operatingExpenses :=
  (scenario_create_amended st0 "m1" "s1" bC8).2.2 "Aggressive" rfl (by decide)

/-! ## C10 -/

/-- C10: when any stage of the background run fails (analyst, modeler,
validator, or either renderer), the failure handler rewrites only the
status (to failed) and the update timestamp of the targeted model row;
all its other fields, every other model row, and the version and
scenario tables keep their exact prior values. -/
theorem failure_frame (st : Storage) (modelId : String)
    (analysis : Except String String) (modeler : Except String GeneratedModel)
    (excel docx : Except String String) (now : ℕ)
    (hfail : ¬∃ g ep dp, generateFinancialModelRun analysis modeler = Except.ok g ∧
      excel = Except.ok ep ∧ docx = Except.ok dp) :
    ∃ st2, processModelGeneration st modelId analysis modeler excel docx now = st2 ∧
      st2.modelVersions = st.modelVersions ∧ st2.scenarios = st.scenarios ∧
      st2.financialModels.length = st.financialModels.length ∧
      ∀ i (h : i < st.financialModels.length) (h2 : i < st2.financialModels.length),
        ((st.financialModels.get ⟨i, h⟩).id ≠ modelId →
          st2.financialModels.get ⟨i, h2⟩ = st.financialModels.get ⟨i, h⟩) ∧
        ((st.financialModels.get ⟨i, h⟩).id = modelId →
          st2.financialModels.get ⟨i, h2⟩ =
            { st.financialModels.get ⟨i, h⟩ with status := "failed", updatedAt := now }) := by
  have hred : processModelGeneration st modelId analysis modeler excel docx now =
      (updateFinancialModel st modelId failPatch now).1 := by
    unfold processModelGeneration
    cases hg : generateFinancialModelRun analysis modeler with
    | error e => rfl
    | ok g =>
      cases he : excel with
      | error e => rfl
      | ok ep =>
        cases hd : docx with
        | error e => rfl
        | ok dp => exact absurd ⟨g, ep, dp, hg, he, hd⟩ hfail
  have hget : ∀ (i : ℕ) (h : i < st.financialModels.length)
      (h2 : i < (updateFinancialModel st modelId failPatch now).1.financialModels.length),
      (updateFinancialModel st modelId failPatch now).1.financialModels.get ⟨i, h2⟩ =
        if (st.financialModels.get ⟨i, h⟩).id = modelId
        then applyPatch (st.financialModels.get ⟨i, h⟩) failPatch now
        else st.financialModels.get ⟨i, h⟩ := by
    intro i h h2
    show (st.financialModels.map
      (fun m => if m.id = modelId then applyPatch m failPatch now else m)).get _ = _
    simp only [List.get_eq_getElem, List.getElem_map]
  refine ⟨_, hred, rfl, rfl, ?_, ?_⟩
  · show (st.financialModels.map _).length = _
    rw [List.length_map]
  · intro i h h2
    constructor
    · intro hne
      rw [hget i h h2, if_neg hne]
    · intro heq
      rw [hget i h h2, if_pos heq]
      rfl

/-- Instantiation of the frame theorem at a concrete one-model storage
and an analyst failure. -/
theorem failure_frame_witness :
    ∃ st2, processModelGeneration stW "m1" (Except.error "boom")
        (Except.error "boom") (Except.error "boom") (Except.error "boom") 7 = st2 ∧
      st2.modelVersions = stW.modelVersions ∧ st2.scenarios = stW.scenarios ∧
      st2.financialModels.length = stW.financialModels.length ∧
      ∀ i (h : i < stW.financialModels.length) (h2 : i < st2.financialModels.length),
        ((stW.financialModels.get ⟨i, h⟩).id ≠ "m1" →
          st2.financialModels.get ⟨i, h2⟩ = stW.financialModels.get ⟨i, h⟩) ∧
        ((stW.financialModels.get ⟨i, h⟩).id = "m1" →
          st2.financialModels.get ⟨i, h2⟩ =
            { stW.financialModels.get ⟨i, h⟩ with status := "failed", updatedAt := 7 }) :=
  failure_frame stW "m1" (Except.error "boom") (Except.error "boom")
    (Except.error "boom") (Except.error "boom") 7
    (by rintro ⟨g, ep, dp, hg, -, -⟩; simp [generateFinancialModelRun] at hg)

end IFA
